import Mathlib

/-!
Shallow embedding of the oxfd.js client library (src/index.js): the token-bucket
admission gate, the retrying HTTP request executor with its error taxonomy, the
grouped manager facades, and the constructor's rate-limit configuration.

Modelling conventions:
* JS numbers that matter here are exact (millisecond timestamps, token counts,
  rates); they are modelled as `Rat`.  A JS number that can be NaN (the result
  of `Number(string)`) is modelled by `JsNum`.
* `JSON.parse` is a runtime service, not code of this repository; the executor
  is parameterised by `parse : String → Option JsValue` where `none` stands for
  a parse exception.
* `fetch` outcomes are modelled by `FetchOutcome`: a rejection with an
  AbortError (the timeout controller fired), a rejection with any other error,
  or a resolved response (status, statusText, Retry-After header, body text).
* The executor records its observable actions (admission-gate acquisition,
  issuing one HTTP attempt, sleeping before a retry) in an event trace.
-/

namespace Oxfd

/-- JS number that may be NaN (result of converting a string with `Number`). -/
inductive JsNum where
  | nan
  | val (q : Rat)
deriving DecidableEq

/-- Multiplication of JS numbers: NaN is absorbing. -/
def jsNumMul : JsNum → JsNum → JsNum
  | JsNum.val a, JsNum.val b => JsNum.val (a * b)
  | _, _ => JsNum.nan

/-- Digits check for the decimal fragment of JS `Number(string)`. -/
def allDigits (cs : List Char) : Bool := cs.all Char.isDigit

/-- Value of a digit list read in base 10. -/
def natOfDigits (cs : List Char) : Nat :=
  cs.foldl (fun a c => a * 10 + (c.toNat - 48)) 0

/-- Unsigned decimal numeral (digits, optionally with one dot): "2", "1.5",
"1.", ".5".  Returns `none` for anything else (which `Number` maps to NaN). -/
def decOfChars (cs : List Char) : Option Rat :=
  let ip := cs.takeWhile (fun c => c ≠ '.')
  match cs.dropWhile (fun c => c ≠ '.') with
  | [] =>
      if ip ≠ [] && allDigits ip then some (natOfDigits ip : Rat) else none
  | _ :: fp =>
      if allDigits ip && allDigits fp && !(ip.isEmpty && fp.isEmpty) then
        some ((natOfDigits ip : Rat) + (natOfDigits fp : Rat) / (10 ^ fp.length))
      else none

/-- Whitespace stripped by `Number(string)` before conversion. -/
def isJsSpace (c : Char) : Bool :=
  c = ' ' || c = '\t' || c = '\n' || c = '\r' || c = '\x0b' || c = '\x0c'

/-- Strip leading and trailing whitespace. -/
def trimChars (cs : List Char) : List Char :=
  ((cs.dropWhile isJsSpace).reverse.dropWhile isJsSpace).reverse

/-- JS `Number(string)`: trimmed empty string is 0, a signed decimal numeral is
its value, anything else is NaN.  (The hex/exponent forms of StringNumericLiteral
are irrelevant to Retry-After headers and are mapped to NaN like any other
non-decimal text.) -/
def stringToNumber (s : String) : JsNum :=
  match trimChars s.toList with
  | [] => JsNum.val 0
  | '+' :: rest =>
      match decOfChars rest with
      | some q => JsNum.val q
      | none => JsNum.nan
  | '-' :: rest =>
      match decOfChars rest with
      | some q => JsNum.val (-q)
      | none => JsNum.nan
  | cs =>
      match decOfChars cs with
      | some q => JsNum.val q
      | none => JsNum.nan

mutual
/-- JSON-representable JS value (what `JSON.parse` can produce). -/
inductive JsValue where
  | null
  | boolV (b : Bool)
  | num (q : Rat)
  | str (s : String)
  | arr (xs : JsArray)
  | obj (fs : JsObject)

/-- Array of JS values (own inductive so recursion stays structural). -/
inductive JsArray where
  | nil
  | cons (v : JsValue) (rest : JsArray)

/-- Object field list. -/
inductive JsObject where
  | nil
  | cons (key : String) (v : JsValue) (rest : JsObject)
end

/-- Field lookup on an object. -/
def jsObjLookup : JsObject → String → Option JsValue
  | JsObject.nil, _ => none
  | JsObject.cons k v rest, key => if k = key then some v else jsObjLookup rest key

/-- Optional-chaining member access `data?.field`: a field of an object,
`undefined` (= `none`) on every other value. -/
def jsGetField (d : JsValue) (key : String) : Option JsValue :=
  match d with
  | JsValue.obj fs => jsObjLookup fs key
  | _ => none

/-- JS truthiness of a JSON value: null, false, 0 and "" are falsy. -/
def jsTruthy : JsValue → Bool
  | JsValue.null => false
  | JsValue.boolV b => b
  | JsValue.num q => if q = 0 then false else true
  | JsValue.str s => if s = "" then false else true
  | JsValue.arr _ => true
  | JsValue.obj _ => true

/-- Rendering of a numeric value in a message string.  Integral values match
JS `Number#toString`; non-integral rationals are rendered as fractions (this
approximation is never exercised by the claims below). -/
def ratToString (q : Rat) : String :=
  if q.den = 1 then toString q.num else toString q.num ++ "/" ++ toString q.den

mutual
/-- JS string coercion `String(v)` of a JSON value, as used when a parsed
`message` field is interpolated into an error message. -/
def jsToString : JsValue → String
  | JsValue.null => "null"
  | JsValue.boolV true => "true"
  | JsValue.boolV false => "false"
  | JsValue.num q => ratToString q
  | JsValue.str s => s
  | JsValue.arr xs => jsArrToString xs
  | JsValue.obj _ => "[object Object]"

/-- Array coercion: elements joined with commas, null elements rendered empty. -/
def jsArrToString : JsArray → String
  | JsArray.nil => ""
  | JsArray.cons v rest =>
      (match v with
       | JsValue.null => ""
       | w => jsToString w) ++
      (match rest with
       | JsArray.nil => ""
       | r => "," ++ jsArrToString r)
end

/-- JS `x || s` where `x` is an optional field value and `s` a string
(`data?.message || res.statusText`). -/
def jsOrString (x : Option JsValue) (s : String) : JsValue :=
  match x with
  | some v => if jsTruthy v then v else JsValue.str s
  | none => JsValue.str s

/-- JS `x || null` where `x` is an optional field value
(`data?.error || null`). -/
def jsOrNull (x : Option JsValue) : Option JsValue :=
  match x with
  | some v => if jsTruthy v then some v else none
  | none => none

/-- One thrown error object: its class name plus the fields the classes carry
(`status`, `details`, and `retryAfter` for RateLimitError). -/
structure JsError where
  name : String
  message : String
  status : Nat
  details : Option JsValue
  retryAfter : Option String

/-- The `new OxfordAPIError(message, status, details)` constructor. -/
def oxfordAPIError (message : String) (status : Nat) (details : Option JsValue) : JsError :=
  ⟨"OxfordAPIError", message, status, details, none⟩

/-- The `new RateLimitError(message, retryAfter)` constructor: status fixed 429,
details default null. -/
def rateLimitError (message : String) (retryAfter : Option String) : JsError :=
  ⟨"RateLimitError", message, 429, none, retryAfter⟩

/-- The `new AuthError()` constructor: fixed message and status 403. -/
def authError : JsError :=
  ⟨"AuthError", "Invalid API key or unauthorized access", 403, none, none⟩

/-- The `new ServerUnavailableError(message)` constructor: `message ||` default
applied to the (possibly non-string) argument, status fixed 503. -/
def serverUnavailableError (msg : JsValue) : JsError :=
  ⟨"ServerUnavailableError",
   if jsTruthy msg then jsToString msg else "Server data temporarily unavailable",
   503, none, none⟩

/-- A failure surfacing from a client call: a thrown Oxford error, or the
`TypeError` thrown by `executeCommand`'s argument validation. -/
inductive Failure where
  | oxford (e : JsError)
  | typeError (message : String)

/-- Observable actions of the request executor. -/
inductive Event where
  | acquire
  | attemptFetch (attempt : Nat)
  | sleep (ms : JsNum)
deriving DecidableEq

/-- Outcome of one `fetch` attempt: the timeout controller aborted it, it was
rejected with some other error, or it resolved to a response. -/
inductive FetchOutcome where
  | abortError
  | netError (message : String)
  | response (status : Nat) (statusText : String) (retryAfter : Option String)
      (bodyText : String)

/-- Result of a client call: the settled value (or failure) and the trace of
observable actions along the way. -/
structure RunOut where
  result : Except Failure JsValue
  events : List Event

/-- Body handling `text ? JSON.parse(text) : null` with the catch turning an
unparseable non-empty body into an object carrying the raw text as message. -/
def parseBody (parse : String → Option JsValue) (text : String) : JsValue :=
  if text = "" then JsValue.null
  else
    match parse text with
    | some j => j
    | none => JsValue.obj (JsObject.cons "message" (JsValue.str text) JsObject.nil)

/-- The `res.ok` predicate of fetch: status in 200..299. -/
def resOk (status : Nat) : Bool := 200 ≤ status && status < 300

/-- Retry delay `Number(res.headers.get("Retry-After") || 1) * 1000`: an absent
or empty header defaults to 1 (so 1000 ms); a non-empty header is converted as
a JS number, NaN included. -/
def retryWaitMs (retryAfter : Option String) : JsNum :=
  match retryAfter with
  | none => JsNum.val 1000
  | some s =>
      if s = "" then JsNum.val 1000
      else jsNumMul (stringToNumber s) (JsNum.val 1000)

/-- Error classification of a non-2xx, non-429 response
(`data?.message || res.statusText`, `data?.error || null`, then the switch). -/
def classifyError (status : Nat) (path statusText : String) (data : JsValue) : JsError :=
  let msg := jsOrString (jsGetField data "message") statusText
  let detail := jsOrNull (jsGetField data "error")
  match status with
  | 400 => oxfordAPIError ("Bad request: " ++ jsToString msg) 400 detail
  | 403 => authError
  | 404 => oxfordAPIError ("Not found: " ++ path) 404 detail
  | 500 => oxfordAPIError ("Internal server error: " ++ jsToString msg) 500 detail
  | 503 => serverUnavailableError msg
  | _ => oxfordAPIError (jsToString msg) status detail

/-- Bucket parameters chosen by the constructor. -/
structure BucketConfig where
  capacity : Rat
  refillRate : Rat

/-- The `rateLimit` constructor option: "auto", "none", or a number of seconds. -/
inductive RateLimitSetting where
  | auto
  | noLimit
  | seconds (s : Rat)

/-- The constructor's rate-limit dispatch: "none" installs no bucket, "auto" a
(10, 29/1000) bucket, a number S a (1, 1/(S*1000)) bucket. -/
def mkBucket : RateLimitSetting → Option BucketConfig
  | RateLimitSetting.noLimit => none
  | RateLimitSetting.auto => some ⟨10, (29 : Rat) / 1000⟩
  | RateLimitSetting.seconds s => some ⟨1, 1 / (s * 1000)⟩

/-- The client instance: fields set by the constructor. -/
structure OxfordAPI where
  serverKey : String
  baseUrl : String
  maxRetries : Nat
  timeout : Nat
  _bucket : Option BucketConfig

/-- Constructor options; `none` is an omitted option (JS destructuring default). -/
structure CtorOptions where
  serverKey : String
  rateLimit : Option RateLimitSetting
  maxRetries : Option Nat
  timeout : Option Nat

/-- The `OxfordAPI` constructor: requires a non-empty serverKey, applies the
option defaults ("auto", 3, 10000) and installs the bucket per `mkBucket`. -/
def OxfordAPI.create (o : CtorOptions) : Except String OxfordAPI :=
  if o.serverKey = "" then Except.error "[oxfd.js] serverKey is required"
  else
    Except.ok
      ⟨o.serverKey, "https://api.oxfd.re/v1",
       o.maxRetries.getD 3, o.timeout.getD 10000,
       mkBucket (o.rateLimit.getD RateLimitSetting.auto)⟩

/-- Admission-gate events of one attempt: `if (this._bucket) await acquire()`. -/
def bucketEvents (api : OxfordAPI) : List Event :=
  match api._bucket with
  | some _ => [Event.acquire]
  | none => []

/-- The body of `_request(method, path, body, attempt)`.  `fuel` bounds the
retry recursion structurally; the wrapper `OxfordAPI._request` starts it at
`maxRetries + 1`, and it decreases exactly once per retry while `attempt`
increases, so `fuel = 0` is reached only with `attempt > maxRetries`, where the
source also fails with the rate-limit error. -/
def requestLoop (api : OxfordAPI) (parse : String → Option JsValue)
    (method path : String) (body : Option JsValue)
    (outcomes : Nat → FetchOutcome) : Nat → Nat → RunOut
  | fuel, attempt =>
    let pre := bucketEvents api
    match outcomes attempt with
    | FetchOutcome.abortError =>
        ⟨Except.error (Failure.oxford (oxfordAPIError "Request timed out" 408 none)),
         pre ++ [Event.attemptFetch attempt]⟩
    | FetchOutcome.netError emsg =>
        ⟨Except.error (Failure.oxford (oxfordAPIError ("Network error: " ++ emsg) 0 none)),
         pre ++ [Event.attemptFetch attempt]⟩
    | FetchOutcome.response status statusText retryAfter bodyText =>
        if status = 429 then
          if attempt < api.maxRetries then
            match fuel with
            | Nat.succ fuel' =>
                let rest := requestLoop api parse method path body outcomes fuel' (attempt + 1)
                ⟨rest.result,
                 pre ++ [Event.attemptFetch attempt, Event.sleep (retryWaitMs retryAfter)]
                   ++ rest.events⟩
            | Nat.zero =>
                ⟨Except.error (Failure.oxford (rateLimitError "Rate limit exceeded" retryAfter)),
                 pre ++ [Event.attemptFetch attempt]⟩
          else
            ⟨Except.error (Failure.oxford (rateLimitError "Rate limit exceeded" retryAfter)),
             pre ++ [Event.attemptFetch attempt]⟩
        else
          let data := parseBody parse bodyText
          if resOk status then
            ⟨Except.ok data, pre ++ [Event.attemptFetch attempt]⟩
          else
            ⟨Except.error (Failure.oxford (classifyError status path statusText data)),
             pre ++ [Event.attemptFetch attempt]⟩

/-- `_request` as called by the resource methods: attempt count 0. -/
def OxfordAPI._request (api : OxfordAPI) (parse : String → Option JsValue)
    (method path : String) (body : Option JsValue)
    (outcomes : Nat → FetchOutcome) : RunOut :=
  requestLoop api parse method path body outcomes (api.maxRetries + 1) 0

/-- `_get(path)`. -/
def OxfordAPI._get (api : OxfordAPI) (parse : String → Option JsValue)
    (path : String) (outcomes : Nat → FetchOutcome) : RunOut :=
  api._request parse "GET" path none outcomes

/-- `_post(path, body)`. -/
def OxfordAPI._post (api : OxfordAPI) (parse : String → Option JsValue)
    (path : String) (body : JsValue) (outcomes : Nat → FetchOutcome) : RunOut :=
  api._request parse "POST" path (some body) outcomes

/-- A JS value passed as the `executeCommand` argument (any runtime value). -/
inductive JsArg where
  | undef
  | nullA
  | boolA (b : Bool)
  | numA (n : JsNum)
  | strA (s : String)
  | objA
deriving DecidableEq

/-- `typeof command === "string"`. -/
def jsArgIsString : JsArg → Bool
  | JsArg.strA _ => true
  | _ => false

def OxfordAPI.getServer (api : OxfordAPI) (parse : String → Option JsValue)
    (outcomes : Nat → FetchOutcome) : RunOut := api._get parse "/server" outcomes

def OxfordAPI.getPlayers (api : OxfordAPI) (parse : String → Option JsValue)
    (outcomes : Nat → FetchOutcome) : RunOut := api._get parse "/server/players" outcomes

def OxfordAPI.getQueue (api : OxfordAPI) (parse : String → Option JsValue)
    (outcomes : Nat → FetchOutcome) : RunOut := api._get parse "/server/queue" outcomes

def OxfordAPI.getBans (api : OxfordAPI) (parse : String → Option JsValue)
    (outcomes : Nat → FetchOutcome) : RunOut := api._get parse "/server/bans" outcomes

def OxfordAPI.getKillLogs (api : OxfordAPI) (parse : String → Option JsValue)
    (outcomes : Nat → FetchOutcome) : RunOut := api._get parse "/server/killlogs" outcomes

def OxfordAPI.getCommandLogs (api : OxfordAPI) (parse : String → Option JsValue)
    (outcomes : Nat → FetchOutcome) : RunOut := api._get parse "/server/commandlogs" outcomes

def OxfordAPI.getModCalls (api : OxfordAPI) (parse : String → Option JsValue)
    (outcomes : Nat → FetchOutcome) : RunOut := api._get parse "/server/modcalls" outcomes

def OxfordAPI.getVehicles (api : OxfordAPI) (parse : String → Option JsValue)
    (outcomes : Nat → FetchOutcome) : RunOut := api._get parse "/server/vehicles" outcomes

def OxfordAPI.getRobberies (api : OxfordAPI) (parse : String → Option JsValue)
    (outcomes : Nat → FetchOutcome) : RunOut := api._get parse "/server/robberies" outcomes

def OxfordAPI.getRadioCalls (api : OxfordAPI) (parse : String → Option JsValue)
    (outcomes : Nat → FetchOutcome) : RunOut := api._get parse "/server/radiocalls" outcomes

def OxfordAPI.getJoinLogs (api : OxfordAPI) (parse : String → Option JsValue)
    (outcomes : Nat → FetchOutcome) : RunOut := api._get parse "/server/joinlogs" outcomes

/-- `executeCommand(command)`: the guard `!command || typeof command !== "string"`
rejects exactly the non-strings and the empty string (for a string, `!command`
is true only when it is empty), throwing the TypeError before `_request` is
entered — hence the empty event trace.  Otherwise it posts `{command}`. -/
def OxfordAPI.executeCommand (api : OxfordAPI) (parse : String → Option JsValue)
    (command : JsArg) (outcomes : Nat → FetchOutcome) : RunOut :=
  match command with
  | JsArg.strA s =>
      if s = "" then
        ⟨Except.error (Failure.typeError "[oxfd.js] command must be a non-empty string"), []⟩
      else
        api._post parse "/server/command"
          (JsValue.obj (JsObject.cons "command" (JsValue.str s) JsObject.nil)) outcomes
  | _ =>
      ⟨Except.error (Failure.typeError "[oxfd.js] command must be a non-empty string"), []⟩

/-- The `Servers` manager: holds the client it was constructed with. -/
structure Servers where
  _api : OxfordAPI

/-- The `Logs` manager. -/
structure Logs where
  _api : OxfordAPI

/-- The `Commands` manager. -/
structure Commands where
  _api : OxfordAPI

/-- `new Servers(this)` done by the client constructor. -/
def OxfordAPI.servers (api : OxfordAPI) : Servers := ⟨api⟩

/-- `new Logs(this)` done by the client constructor. -/
def OxfordAPI.logs (api : OxfordAPI) : Logs := ⟨api⟩

/-- `new Commands(this)` done by the client constructor. -/
def OxfordAPI.commands (api : OxfordAPI) : Commands := ⟨api⟩

def Servers.getServer (m : Servers) (parse : String → Option JsValue)
    (outcomes : Nat → FetchOutcome) : RunOut := m._api.getServer parse outcomes

def Servers.getPlayers (m : Servers) (parse : String → Option JsValue)
    (outcomes : Nat → FetchOutcome) : RunOut := m._api.getPlayers parse outcomes

def Servers.getQueue (m : Servers) (parse : String → Option JsValue)
    (outcomes : Nat → FetchOutcome) : RunOut := m._api.getQueue parse outcomes

def Servers.getBans (m : Servers) (parse : String → Option JsValue)
    (outcomes : Nat → FetchOutcome) : RunOut := m._api.getBans parse outcomes

def Servers.getVehicles (m : Servers) (parse : String → Option JsValue)
    (outcomes : Nat → FetchOutcome) : RunOut := m._api.getVehicles parse outcomes

def Servers.getRobberies (m : Servers) (parse : String → Option JsValue)
    (outcomes : Nat → FetchOutcome) : RunOut := m._api.getRobberies parse outcomes

def Logs.getKillLogs (m : Logs) (parse : String → Option JsValue)
    (outcomes : Nat → FetchOutcome) : RunOut := m._api.getKillLogs parse outcomes

def Logs.getCommandLogs (m : Logs) (parse : String → Option JsValue)
    (outcomes : Nat → FetchOutcome) : RunOut := m._api.getCommandLogs parse outcomes

def Logs.getModCalls (m : Logs) (parse : String → Option JsValue)
    (outcomes : Nat → FetchOutcome) : RunOut := m._api.getModCalls parse outcomes

def Logs.getRadioCalls (m : Logs) (parse : String → Option JsValue)
    (outcomes : Nat → FetchOutcome) : RunOut := m._api.getRadioCalls parse outcomes

def Logs.getJoinLogs (m : Logs) (parse : String → Option JsValue)
    (outcomes : Nat → FetchOutcome) : RunOut := m._api.getJoinLogs parse outcomes

def Commands.execute (m : Commands) (parse : String → Option JsValue)
    (command : JsArg) (outcomes : Nat → FetchOutcome) : RunOut :=
  m._api.executeCommand parse command outcomes

/-!
The token bucket.

The bucket itself is single-threaded JS: `acquire` pushes a resolver and calls
`_process`; `_process` is a no-op when a drain is already running, otherwise it
sets `processing` and runs `tick`; `tick` synchronously grants queued waiters
while at least one token is available (refilling lazily from the clock), and
otherwise schedules itself with `setTimeout`.

The embedding drives this machine by an event list: an `arrive` event is one
`acquire()` call (carrying an id for the waiter and the clock reading), a
`timerFire` event is the scheduled `tick` callback running.  All `Date.now()`
readings within one synchronous drain are the same `now` — a second `_refill`
at an unchanged clock adds zero tokens, so this matches successive readings
inside one tick burst.  Scheduled-timer state is the delay passed to
`setTimeout`, kept in the system state.
-/

/-- The `TokenBucket` fields. -/
structure TokenBucket where
  capacity : Rat
  tokens : Rat
  refillRate : Rat
  lastRefill : Rat
  queue : List Nat
  processing : Bool
deriving DecidableEq

/-- `new TokenBucket(capacity, refillRate)` at clock reading `now`. -/
def TokenBucket.mkAt (capacity refillRate now : Rat) : TokenBucket :=
  ⟨capacity, capacity, refillRate, now, [], false⟩

/-- `_refill()`: add `elapsed * refillRate` tokens, clamped above by capacity,
and advance the refill timestamp. -/
def TokenBucket._refill (b : TokenBucket) (now : Rat) : TokenBucket :=
  let elapsed := now - b.lastRefill
  { b with tokens := min b.capacity (b.tokens + elapsed * b.refillRate), lastRefill := now }

/-- Result of running `tick`: the bucket afterwards, the waiters resolved (in
order), and the delay passed to `setTimeout` when the drain paused. -/
structure TickOut where
  bucket : TokenBucket
  granted : List Nat
  timer : Option Rat
deriving DecidableEq

/-- The body of `tick`, with the recursion made structural on `fuel`.  One unit
of fuel is spent per granted waiter; the wrapper `TokenBucket.tick` supplies
`queue.length`, which is exactly enough, and the `fuel = 0` fallback coincides
with the empty-queue exit of the source. -/
def tickFuel (now : Rat) : Nat → TokenBucket → TickOut
  | 0, b => ⟨{ b with processing := false }, [], none⟩
  | Nat.succ fuel, b =>
    match b.queue with
    | [] => ⟨{ b with processing := false }, [], none⟩
    | id :: rest =>
      let b1 := b._refill now
      if 1 ≤ b1.tokens then
        let r := tickFuel now fuel { b1 with tokens := b1.tokens - 1, queue := rest }
        ⟨r.bucket, id :: r.granted, r.timer⟩
      else
        ⟨b1, [], some ((1 - b1.tokens) / b1.refillRate)⟩

/-- `tick` at clock reading `now`. -/
def TokenBucket.tick (b : TokenBucket) (now : Rat) : TickOut :=
  tickFuel now b.queue.length b

/-- System state: the bucket, the waiters resolved so far, and the pending
`setTimeout` delay if the drain is parked on a timer. -/
structure BucketSys where
  bucket : TokenBucket
  grants : List Nat
  timer : Option Rat
deriving DecidableEq

/-- A fresh client's bucket system. -/
def initSys (capacity refillRate t0 : Rat) : BucketSys :=
  ⟨TokenBucket.mkAt capacity refillRate t0, [], none⟩

/-- External stimuli: an `acquire()` call (waiter id, clock reading) or the
scheduled timer callback running. -/
inductive BEvent where
  | arrive (id : Nat) (now : Rat)
  | timerFire (now : Rat)
deriving DecidableEq

/-- One stimulus.  `arrive`: push the resolver, then `_process` — which returns
at once when `processing` is set, and otherwise sets it and runs `tick`.
`timerFire`: the parked drain continues with `tick` (only meaningful when a
timer is pending; a spurious fire is a no-op). -/
def stepSys (s : BucketSys) : BEvent → BucketSys
  | BEvent.arrive id now =>
    let b0 := { s.bucket with queue := s.bucket.queue ++ [id] }
    if b0.processing then { s with bucket := b0 }
    else
      let r := TokenBucket.tick { b0 with processing := true } now
      ⟨r.bucket, s.grants ++ r.granted, r.timer⟩
  | BEvent.timerFire now =>
    match s.timer with
    | some _ =>
      let r := TokenBucket.tick s.bucket now
      ⟨r.bucket, s.grants ++ r.granted, r.timer⟩
    | none => s

/-- Run a stimulus sequence. -/
def runSys (s : BucketSys) (es : List BEvent) : BucketSys := es.foldl stepSys s

/-- Ids of the `arrive` events, in order. -/
def arrivalIds : List BEvent → List Nat
  | [] => []
  | BEvent.arrive id _ :: es => id :: arrivalIds es
  | BEvent.timerFire _ :: es => arrivalIds es

/-- Clock reading of a stimulus. -/
def eventTime : BEvent → Rat
  | BEvent.arrive _ now => now
  | BEvent.timerFire now => now

/-- Clock readings are at least `t` and nondecreasing along the list. -/
def chrono : Rat → List BEvent → Bool
  | _, [] => true
  | t, e :: es => decide (t ≤ eventTime e) && chrono (eventTime e) es

/-! Lemmas about the drain loop. -/

theorem tickFuel_spine (now : Rat) (fuel : Nat) : ∀ b : TokenBucket,
    (tickFuel now fuel b).granted ++ (tickFuel now fuel b).bucket.queue = b.queue := by
  induction fuel with
  | zero => intro b; simp [tickFuel]
  | succ fuel ih =>
    intro b
    obtain ⟨cap, tok, rate, last, q, proc⟩ := b
    cases q with
    | nil => simp [tickFuel]
    | cons id rest =>
      simp only [tickFuel, TokenBucket._refill]
      split
      · simpa using ih _
      · simp

theorem tick_spine (b : TokenBucket) (now : Rat) :
    (b.tick now).granted ++ (b.tick now).bucket.queue = b.queue :=
  tickFuel_spine now b.queue.length b

theorem stepSys_spine (s : BucketSys) (e : BEvent) :
    (stepSys s e).grants ++ (stepSys s e).bucket.queue =
      (s.grants ++ s.bucket.queue) ++ arrivalIds [e] := by
  cases e with
  | arrive id now =>
    simp only [stepSys, arrivalIds]
    split
    · simp
    · have h := tick_spine { s.bucket with queue := s.bucket.queue ++ [id], processing := true } now
      simp only [TokenBucket.tick, List.length_append, List.length_cons, List.length_nil] at h ⊢
      simp [List.append_assoc, h]
  | timerFire now =>
    simp only [stepSys, arrivalIds]
    cases htm : s.timer with
    | none => simp
    | some d =>
      have h := tick_spine s.bucket now
      simp only [TokenBucket.tick] at h ⊢
      simp [List.append_assoc, h]

theorem runSys_spine (es : List BEvent) : ∀ s : BucketSys,
    (runSys s es).grants ++ (runSys s es).bucket.queue =
      (s.grants ++ s.bucket.queue) ++ arrivalIds es := by
  induction es with
  | nil => intro s; simp [runSys, arrivalIds]
  | cons e es ih =>
    intro s
    have h1 := stepSys_spine s e
    have h2 := ih (stepSys s e)
    have : runSys s (e :: es) = runSys (stepSys s e) es := by simp [runSys, List.foldl]
    rw [this, h2, h1]
    cases e <;> simp [arrivalIds]

theorem tickFuel_inv (now : Rat) (fuel : Nat) : ∀ b : TokenBucket,
    0 ≤ b.tokens → b.tokens ≤ b.capacity → b.lastRefill ≤ now →
    0 ≤ b.refillRate → 0 ≤ b.capacity →
    (0 ≤ (tickFuel now fuel b).bucket.tokens ∧
        (tickFuel now fuel b).bucket.tokens ≤ b.capacity) ∧
      (tickFuel now fuel b).bucket.capacity = b.capacity ∧
      (tickFuel now fuel b).bucket.refillRate = b.refillRate ∧
      (tickFuel now fuel b).bucket.lastRefill ≤ now := by
  induction fuel with
  | zero =>
    intro b h0 h1 h2 h3 h4
    simpa [tickFuel] using ⟨⟨h0, h1⟩, h2⟩
  | succ fuel ih =>
    intro b h0 h1 h2 h3 h4
    obtain ⟨cap, tok, rate, last, q, proc⟩ := b
    simp only at h0 h1 h2 h3 h4
    cases q with
    | nil => simpa [tickFuel] using ⟨⟨h0, h1⟩, h2⟩
    | cons id rest =>
      have href0 : (0 : Rat) ≤ min cap (tok + (now - last) * rate) :=
        le_min h4 (add_nonneg h0 (mul_nonneg (sub_nonneg.mpr h2) h3))
      have hrefc : min cap (tok + (now - last) * rate) ≤ cap := min_le_left _ _
      simp only [tickFuel, TokenBucket._refill]
      split
      · rename_i hcond
        have hc1 : (1 : Rat) ≤ min cap (tok + (now - last) * rate) := hcond
        have hrec := ih ⟨cap, min cap (tok + (now - last) * rate) - 1, rate, now, rest, proc⟩
          (sub_nonneg.mpr hc1)
          (le_trans (sub_le_self _ zero_le_one) hrefc)
          (le_refl now) h3 h4
        exact hrec
      · exact ⟨⟨href0, hrefc⟩, rfl, rfl, le_refl now⟩

theorem stepSys_inv (C R : Rat) (hR : 0 ≤ R) (hC : 0 ≤ C) (s : BucketSys) (e : BEvent)
    (t : Rat) (h0 : 0 ≤ s.bucket.tokens) (h1 : s.bucket.tokens ≤ C)
    (hcap : s.bucket.capacity = C) (hrate : s.bucket.refillRate = R)
    (hlast : s.bucket.lastRefill ≤ t) (ht : t ≤ eventTime e) :
    (0 ≤ (stepSys s e).bucket.tokens ∧ (stepSys s e).bucket.tokens ≤ C) ∧
      (stepSys s e).bucket.capacity = C ∧ (stepSys s e).bucket.refillRate = R ∧
      (stepSys s e).bucket.lastRefill ≤ eventTime e := by
  have hlastE : s.bucket.lastRefill ≤ eventTime e := le_trans hlast ht
  cases e with
  | arrive id now =>
    simp only [eventTime] at hlastE ⊢
    simp only [stepSys]
    split
    · exact ⟨⟨h0, h1⟩, hcap, hrate, hlastE⟩
    · have h := tickFuel_inv now ((s.bucket.queue ++ [id]).length)
        { s.bucket with queue := s.bucket.queue ++ [id], processing := true }
        h0 (le_of_le_of_eq h1 hcap.symm) hlastE (hrate ▸ hR) (hcap ▸ hC)
      simp only [TokenBucket.tick]
      exact ⟨⟨h.1.1, le_of_le_of_eq h.1.2 hcap⟩, h.2.1.trans hcap, h.2.2.1.trans hrate,
        h.2.2.2⟩
  | timerFire now =>
    simp only [eventTime] at hlastE ⊢
    simp only [stepSys]
    cases htm : s.timer with
    | none => exact ⟨⟨h0, h1⟩, hcap, hrate, hlastE⟩
    | some d =>
      have h := tickFuel_inv now s.bucket.queue.length s.bucket
        h0 (le_of_le_of_eq h1 hcap.symm) hlastE (hrate ▸ hR) (hcap ▸ hC)
      simp only [TokenBucket.tick]
      exact ⟨⟨h.1.1, le_of_le_of_eq h.1.2 hcap⟩, h.2.1.trans hcap, h.2.2.1.trans hrate,
        h.2.2.2⟩

theorem runSys_inv (C R : Rat) (hR : 0 ≤ R) (hC : 0 ≤ C) :
    ∀ (es : List BEvent) (s : BucketSys) (t : Rat),
    0 ≤ s.bucket.tokens → s.bucket.tokens ≤ C → s.bucket.capacity = C →
    s.bucket.refillRate = R → s.bucket.lastRefill ≤ t → chrono t es = true →
    0 ≤ (runSys s es).bucket.tokens ∧ (runSys s es).bucket.tokens ≤ C := by
  intro es
  induction es with
  | nil => intro s t h0 h1 _ _ _ _; exact ⟨h0, h1⟩
  | cons e es ih =>
    intro s t h0 h1 hcap hrate hlast hch
    simp only [chrono, Bool.and_eq_true, decide_eq_true_eq] at hch
    have hstep := stepSys_inv C R hR hC s e t h0 h1 hcap hrate hlast hch.1
    have : runSys s (e :: es) = runSys (stepSys s e) es := by simp [runSys, List.foldl]
    rw [this]
    exact ih (stepSys s e) (eventTime e) hstep.1.1 hstep.1.2 hstep.2.1 hstep.2.2.1
      hstep.2.2.2 hch.2

theorem tickFuel_tokens_drop (now : Rat) (fuel : Nat) : ∀ b : TokenBucket,
    b.lastRefill = now → b.tokens ≤ b.capacity →
    (tickFuel now fuel b).bucket.tokens =
      b.tokens - (tickFuel now fuel b).granted.length := by
  induction fuel with
  | zero => intro b _ _; simp [tickFuel]
  | succ fuel ih =>
    intro b hl hc
    obtain ⟨cap, tok, rate, last, q, proc⟩ := b
    simp only at hl hc
    subst hl
    cases q with
    | nil => simp [tickFuel]
    | cons id rest =>
      have hzero : tok + (last - last) * rate = tok := by ring
      have href : min cap tok = tok := min_eq_right hc
      simp only [tickFuel, TokenBucket._refill, hzero, href]
      split
      · rename_i hcond
        have hrec := ih ⟨cap, tok - 1, rate, last, rest, proc⟩ rfl
          (le_trans (sub_le_self _ zero_le_one) hc)
        simp only at hrec
        simp only [hrec, List.length_cons]
        push_cast
        ring
      · simp

theorem tick_tokens (b : TokenBucket) (now : Rat) (hq : b.queue ≠ [])
    (hc : b.tokens ≤ b.capacity) :
    (b.tick now).bucket.tokens =
      (b._refill now).tokens - (b.tick now).granted.length := by
  obtain ⟨cap, tok, rate, last, q, proc⟩ := b
  cases q with
  | nil => simp at hq
  | cons id rest =>
    have hrc : min cap (tok + (now - last) * rate) ≤ cap := min_le_left _ _
    simp only [TokenBucket.tick, List.length_cons, tickFuel, TokenBucket._refill]
    split
    · rename_i hcond
      have hrec := tickFuel_tokens_drop now rest.length
        ⟨cap, min cap (tok + (now - last) * rate) - 1, rate, now, rest, proc⟩ rfl
        (le_trans (sub_le_self _ zero_le_one) hrc)
      simp only at hrec
      simp only [hrec, List.length_cons]
      push_cast
      ring
    · simp

theorem stepSys_arrive_grant (cap tok rate last : Rat) (gs : List Nat) (tm : Option Rat)
    (id : Nat) (now : Rat) (h : 1 ≤ min cap (tok + (now - last) * rate)) :
    stepSys ⟨⟨cap, tok, rate, last, [], false⟩, gs, tm⟩ (BEvent.arrive id now) =
      ⟨⟨cap, min cap (tok + (now - last) * rate) - 1, rate, now, [], false⟩,
       gs ++ [id], none⟩ := by
  simp [stepSys, TokenBucket.tick, tickFuel, TokenBucket._refill, h]

theorem stepSys_arrive_wait (cap tok rate last : Rat) (gs : List Nat) (tm : Option Rat)
    (id : Nat) (now : Rat) (h : ¬ 1 ≤ min cap (tok + (now - last) * rate)) :
    stepSys ⟨⟨cap, tok, rate, last, [], false⟩, gs, tm⟩ (BEvent.arrive id now) =
      ⟨⟨cap, min cap (tok + (now - last) * rate), rate, now, [id], true⟩, gs,
       some ((1 - min cap (tok + (now - last) * rate)) / rate)⟩ := by
  simp [stepSys, TokenBucket.tick, tickFuel, TokenBucket._refill, h]

theorem stepSys_timer_grant (cap tok rate last : Rat) (gs : List Nat) (d : Rat)
    (id : Nat) (now : Rat) (h : 1 ≤ min cap (tok + (now - last) * rate)) :
    stepSys ⟨⟨cap, tok, rate, last, [id], true⟩, gs, some d⟩ (BEvent.timerFire now) =
      ⟨⟨cap, min cap (tok + (now - last) * rate) - 1, rate, now, [], false⟩,
       gs ++ [id], none⟩ := by
  simp [stepSys, TokenBucket.tick, tickFuel, TokenBucket._refill, h]

/-! Unfolding equations of `requestLoop`, one per control-flow branch of the
source's `_request`. -/

theorem requestLoop_eq_abort {api : OxfordAPI} {parse : String → Option JsValue}
    {method path : String} {body : Option JsValue} {outcomes : Nat → FetchOutcome}
    {fuel attempt : Nat} (h : outcomes attempt = FetchOutcome.abortError) :
    requestLoop api parse method path body outcomes fuel attempt =
      ⟨Except.error (Failure.oxford (oxfordAPIError "Request timed out" 408 none)),
       bucketEvents api ++ [Event.attemptFetch attempt]⟩ := by
  rw [requestLoop.eq_def]
  dsimp only
  rw [h]

theorem requestLoop_eq_net {api : OxfordAPI} {parse : String → Option JsValue}
    {method path : String} {body : Option JsValue} {outcomes : Nat → FetchOutcome}
    {fuel attempt : Nat} {emsg : String}
    (h : outcomes attempt = FetchOutcome.netError emsg) :
    requestLoop api parse method path body outcomes fuel attempt =
      ⟨Except.error (Failure.oxford (oxfordAPIError ("Network error: " ++ emsg) 0 none)),
       bucketEvents api ++ [Event.attemptFetch attempt]⟩ := by
  rw [requestLoop.eq_def]
  dsimp only
  rw [h]

theorem requestLoop_eq_retry {api : OxfordAPI} {parse : String → Option JsValue}
    {method path : String} {body : Option JsValue} {outcomes : Nat → FetchOutcome}
    {fuel attempt : Nat} {stx : String} {ra : Option String} {txt : String}
    (h : outcomes attempt = FetchOutcome.response 429 stx ra txt)
    (hlt : attempt < api.maxRetries) :
    requestLoop api parse method path body outcomes (fuel + 1) attempt =
      ⟨(requestLoop api parse method path body outcomes fuel (attempt + 1)).result,
       bucketEvents api ++
         [Event.attemptFetch attempt, Event.sleep (retryWaitMs ra)] ++
         (requestLoop api parse method path body outcomes fuel (attempt + 1)).events⟩ := by
  rw [requestLoop.eq_def]
  dsimp only
  rw [h]
  simp [hlt]

theorem requestLoop_eq_exhausted {api : OxfordAPI} {parse : String → Option JsValue}
    {method path : String} {body : Option JsValue} {outcomes : Nat → FetchOutcome}
    {fuel attempt : Nat} {stx : String} {ra : Option String} {txt : String}
    (h : outcomes attempt = FetchOutcome.response 429 stx ra txt)
    (hge : ¬ attempt < api.maxRetries) :
    requestLoop api parse method path body outcomes fuel attempt =
      ⟨Except.error (Failure.oxford (rateLimitError "Rate limit exceeded" ra)),
       bucketEvents api ++ [Event.attemptFetch attempt]⟩ := by
  rw [requestLoop.eq_def]
  dsimp only
  rw [h]
  cases fuel <;> simp [hge]

theorem requestLoop_eq_ok {api : OxfordAPI} {parse : String → Option JsValue}
    {method path : String} {body : Option JsValue} {outcomes : Nat → FetchOutcome}
    {fuel attempt : Nat} {st : Nat} {stx : String} {ra : Option String} {txt : String}
    (h : outcomes attempt = FetchOutcome.response st stx ra txt)
    (h429 : st ≠ 429) (hok : resOk st = true) :
    requestLoop api parse method path body outcomes fuel attempt =
      ⟨Except.ok (parseBody parse txt),
       bucketEvents api ++ [Event.attemptFetch attempt]⟩ := by
  rw [requestLoop.eq_def]
  dsimp only
  rw [h]
  simp [h429, hok]

theorem requestLoop_eq_classified {api : OxfordAPI} {parse : String → Option JsValue}
    {method path : String} {body : Option JsValue} {outcomes : Nat → FetchOutcome}
    {fuel attempt : Nat} {st : Nat} {stx : String} {ra : Option String} {txt : String}
    (h : outcomes attempt = FetchOutcome.response st stx ra txt)
    (h429 : st ≠ 429) (hok : resOk st = false) :
    requestLoop api parse method path body outcomes fuel attempt =
      ⟨Except.error (Failure.oxford (classifyError st path stx (parseBody parse txt))),
       bucketEvents api ++ [Event.attemptFetch attempt]⟩ := by
  rw [requestLoop.eq_def]
  dsimp only
  rw [h]
  simp [h429, hok]

theorem requestLoop_eq_fuel0_429 {api : OxfordAPI} {parse : String → Option JsValue}
    {method path : String} {body : Option JsValue} {outcomes : Nat → FetchOutcome}
    {attempt : Nat} {stx : String} {ra : Option String} {txt : String}
    (h : outcomes attempt = FetchOutcome.response 429 stx ra txt) :
    requestLoop api parse method path body outcomes 0 attempt =
      ⟨Except.error (Failure.oxford (rateLimitError "Rate limit exceeded" ra)),
       bucketEvents api ++ [Event.attemptFetch attempt]⟩ := by
  rw [requestLoop.eq_def]
  dsimp only
  rw [h]
  by_cases hlt : attempt < api.maxRetries <;> simp [hlt]

theorem requestLoop_no_bucket_acquire (sk u : String) (mr tmo : Nat)
    (parse : String → Option JsValue) (method path : String) (body : Option JsValue)
    (outcomes : Nat → FetchOutcome) : ∀ (fuel attempt : Nat),
    Event.acquire ∉
      (requestLoop ⟨sk, u, mr, tmo, none⟩ parse method path body outcomes fuel attempt).events := by
  have hb : bucketEvents ⟨sk, u, mr, tmo, none⟩ = [] := rfl
  intro fuel
  induction fuel with
  | zero =>
    intro attempt
    cases h : outcomes attempt with
    | abortError => simp [requestLoop_eq_abort h, hb]
    | netError m => simp [requestLoop_eq_net h, hb]
    | response st stx ra txt =>
      by_cases h429 : st = 429
      · subst h429
        rw [requestLoop_eq_fuel0_429 h]
        simp [hb]
      · cases hok : resOk st with
        | true => rw [requestLoop_eq_ok h h429 hok]; simp [hb]
        | false => rw [requestLoop_eq_classified h h429 hok]; simp [hb]
  | succ fuel ih =>
    intro attempt
    cases h : outcomes attempt with
    | abortError => simp [requestLoop_eq_abort h, hb]
    | netError m => simp [requestLoop_eq_net h, hb]
    | response st stx ra txt =>
      by_cases h429 : st = 429
      · subst h429
        by_cases hlt : attempt < mr
        · rw [requestLoop_eq_retry h hlt]
          simpa [hb] using ih (attempt + 1)
        · rw [requestLoop_eq_exhausted h hlt]
          simp [hb]
      · cases hok : resOk st with
        | true => rw [requestLoop_eq_ok h h429 hok]; simp [hb]
        | false => rw [requestLoop_eq_classified h h429 hok]; simp [hb]

/-! Claim theorems. -/

/-- C9: for every HTTP 403 response, regardless of the response body's content
(and of how it parses), the executor fails with an authentication error carrying
the fixed status 403, the fixed message "Invalid API key or unauthorized
access", and no detail field. -/
theorem c9_auth_fixed {api : OxfordAPI} {parse : String → Option JsValue}
    {method path : String} {body : Option JsValue} {outcomes : Nat → FetchOutcome}
    {fuel attempt : Nat} {stx : String} {ra : Option String} {txt : String}
    (h : outcomes attempt = FetchOutcome.response 403 stx ra txt) :
    requestLoop api parse method path body outcomes fuel attempt =
      ⟨Except.error (Failure.oxford authError),
       bucketEvents api ++ [Event.attemptFetch attempt]⟩ ∧
    authError =
      ⟨"AuthError", "Invalid API key or unauthorized access", 403, none, none⟩ := by
  refine ⟨?_, rfl⟩
  rw [requestLoop_eq_classified h (by decide) (by decide)]
  rfl

/-- Witness for C9: a concrete 403 response whose body would parse to an object
with its own message still produces the fixed AuthError. -/
theorem c9_auth_fixed_witness :
    requestLoop ⟨"k", "https://api.oxfd.re/v1", 3, 10000, none⟩
        (fun t => some (JsValue.obj (JsObject.cons "message" (JsValue.str t) JsObject.nil)))
        "GET" "/server" none
        (fun _ => FetchOutcome.response 403 "Forbidden" none "go away") 4 0 =
      ⟨Except.error (Failure.oxford authError), [Event.attemptFetch 0]⟩ ∧
    authError =
      ⟨"AuthError", "Invalid API key or unauthorized access", 403, none, none⟩ :=
  @c9_auth_fixed ⟨"k", "https://api.oxfd.re/v1", 3, 10000, none⟩
    (fun t => some (JsValue.obj (JsObject.cons "message" (JsValue.str t) JsObject.nil)))
    "GET" "/server" none
    (fun _ => FetchOutcome.response 403 "Forbidden" none "go away") 4 0
    "Forbidden" none "go away" rfl

/-- C6: an attempt whose fetch is aborted by the timeout controller fails with
the timeout error (status 408, "Request timed out"); an attempt whose fetch
rejects for any other reason fails with the distinct transport error (status 0,
"Network error: " plus the underlying message); the two error values are never
equal; and the constructor's default per-attempt timeout is 10000 ms. -/
theorem c6_timeout_vs_network {api : OxfordAPI} {parse : String → Option JsValue}
    {method path : String} {body : Option JsValue} {outcomes : Nat → FetchOutcome}
    {fuel attempt : Nat} :
    (outcomes attempt = FetchOutcome.abortError →
      requestLoop api parse method path body outcomes fuel attempt =
        ⟨Except.error (Failure.oxford (oxfordAPIError "Request timed out" 408 none)),
         bucketEvents api ++ [Event.attemptFetch attempt]⟩) ∧
    (∀ emsg : String, outcomes attempt = FetchOutcome.netError emsg →
      requestLoop api parse method path body outcomes fuel attempt =
        ⟨Except.error (Failure.oxford (oxfordAPIError ("Network error: " ++ emsg) 0 none)),
         bucketEvents api ++ [Event.attemptFetch attempt]⟩) ∧
    (∀ (emsg : String) (d : Option JsValue),
      oxfordAPIError "Request timed out" 408 none ≠
        oxfordAPIError ("Network error: " ++ emsg) 0 d) ∧
    OxfordAPI.create ⟨"k", none, none, none⟩ =
      Except.ok ⟨"k", "https://api.oxfd.re/v1", 3, 10000, some ⟨10, (29 : Rat) / 1000⟩⟩ := by
  refine ⟨fun h => requestLoop_eq_abort h, fun emsg h => requestLoop_eq_net h,
    fun emsg d => ?_, rfl⟩
  intro heq
  simp [oxfordAPIError, JsError.mk.injEq] at heq

/-- Witness for C6: a concrete aborted attempt and a concrete transport failure
produce the two distinct classified errors. -/
theorem c6_timeout_vs_network_witness :
    requestLoop ⟨"k", "https://api.oxfd.re/v1", 3, 10000, none⟩ (fun _ => none)
        "GET" "/server" none (fun _ => FetchOutcome.abortError) 4 0 =
      ⟨Except.error (Failure.oxford (oxfordAPIError "Request timed out" 408 none)),
       [Event.attemptFetch 0]⟩ ∧
    requestLoop ⟨"k", "https://api.oxfd.re/v1", 3, 10000, none⟩ (fun _ => none)
        "GET" "/server" none (fun _ => FetchOutcome.netError "socket hang up") 4 0 =
      ⟨Except.error
         (Failure.oxford (oxfordAPIError ("Network error: " ++ "socket hang up") 0 none)),
       [Event.attemptFetch 0]⟩ ∧
    oxfordAPIError "Request timed out" 408 none ≠
      oxfordAPIError ("Network error: " ++ "socket hang up") 0 none :=
  ⟨(@c6_timeout_vs_network ⟨"k", "https://api.oxfd.re/v1", 3, 10000, none⟩ (fun _ => none)
      "GET" "/server" none (fun _ => FetchOutcome.abortError) 4 0).1 rfl,
   (@c6_timeout_vs_network ⟨"k", "https://api.oxfd.re/v1", 3, 10000, none⟩ (fun _ => none)
      "GET" "/server" none (fun _ => FetchOutcome.netError "socket hang up") 4 0).2.1
      "socket hang up" rfl,
   (@c6_timeout_vs_network ⟨"k", "https://api.oxfd.re/v1", 3, 10000, none⟩ (fun _ => none)
      "GET" "/server" none (fun _ => FetchOutcome.netError "socket hang up") 4 0).2.2.1
      "socket hang up" none⟩

/-- C7: for every 2xx response, the call succeeds with the parsed body, where
an empty body yields null, a body the parser accepts yields exactly the parsed
value, and a non-empty body the parser rejects yields the wrapper object with
the raw text under "message" (no failure). -/
theorem c7_2xx_body {api : OxfordAPI} {parse : String → Option JsValue}
    {method path : String} {body : Option JsValue} {outcomes : Nat → FetchOutcome}
    {fuel attempt : Nat} {st : Nat} {stx : String} {ra : Option String} {txt : String}
    (h : outcomes attempt = FetchOutcome.response st stx ra txt)
    (hok : resOk st = true) :
    requestLoop api parse method path body outcomes fuel attempt =
      ⟨Except.ok (parseBody parse txt),
       bucketEvents api ++ [Event.attemptFetch attempt]⟩ ∧
    (txt = "" → parseBody parse txt = JsValue.null) ∧
    (∀ j : JsValue, txt ≠ "" → parse txt = some j → parseBody parse txt = j) ∧
    (txt ≠ "" → parse txt = none →
      parseBody parse txt =
        JsValue.obj (JsObject.cons "message" (JsValue.str txt) JsObject.nil)) := by
  have h429 : st ≠ 429 := by
    intro e
    rw [e] at hok
    simp [resOk] at hok
  refine ⟨requestLoop_eq_ok h h429 hok, ?_, ?_, ?_⟩
  · intro he; simp [parseBody, he]
  · intro j hne hp; simp [parseBody, hne, hp]
  · intro hne hp; simp [parseBody, hne, hp]

/-- Witness for C7: a concrete 200 response with a parser that accepts "[1]"
round-trips, and concrete empty and unparseable bodies follow the two fallback
rules. -/
theorem c7_2xx_body_witness :
    requestLoop ⟨"k", "https://api.oxfd.re/v1", 3, 10000, none⟩
        (fun t => if t = "[1]" then some (JsValue.arr (JsArray.cons (JsValue.num 1) JsArray.nil)) else none)
        "GET" "/server" none (fun _ => FetchOutcome.response 200 "OK" none "[1]") 4 0 =
      ⟨Except.ok (JsValue.arr (JsArray.cons (JsValue.num 1) JsArray.nil)),
       [Event.attemptFetch 0]⟩ ∧
    parseBody (fun _ => none) "" = JsValue.null ∧
    parseBody (fun _ => none) "<html>oops" =
      JsValue.obj (JsObject.cons "message" (JsValue.str "<html>oops") JsObject.nil) := by
  have h := @c7_2xx_body ⟨"k", "https://api.oxfd.re/v1", 3, 10000, none⟩
    (fun t => if t = "[1]" then some (JsValue.arr (JsArray.cons (JsValue.num 1) JsArray.nil)) else none)
    "GET" "/server" none (fun _ => FetchOutcome.response 200 "OK" none "[1]") 4 0
    200 "OK" none "[1]" rfl rfl
  have h' := @c7_2xx_body ⟨"k", "https://api.oxfd.re/v1", 3, 10000, none⟩
    (fun _ => none) "GET" "/server" none
    (fun _ => FetchOutcome.response 200 "OK" none "") 4 0 200 "OK" none "" rfl rfl
  have h'' := @c7_2xx_body ⟨"k", "https://api.oxfd.re/v1", 3, 10000, none⟩
    (fun _ => none) "GET" "/server" none
    (fun _ => FetchOutcome.response 200 "OK" none "<html>oops") 4 0 200 "OK" none
    "<html>oops" rfl rfl
  refine ⟨?_, h'.2.1 rfl, h''.2.2.2 (by decide) rfl⟩
  have hp : (fun t => if t = "[1]" then some (JsValue.arr (JsArray.cons (JsValue.num 1) JsArray.nil)) else none) "[1]" = some (JsValue.arr (JsArray.cons (JsValue.num 1) JsArray.nil)) := rfl
  rw [h.1, h.2.2.1 _ (by decide) hp]
  rfl

/-- C8: every `executeCommand` invocation whose argument is the empty string or
not a string at all fails with the TypeError before the admission gate or the
network is touched: the result is the validation failure and the event trace is
empty, so no token is acquired and no fetch is attempted. -/
theorem c8_command_validation (api : OxfordAPI) (parse : String → Option JsValue)
    (outcomes : Nat → FetchOutcome) (v : JsArg)
    (hv : jsArgIsString v = false ∨ v = JsArg.strA "") :
    api.executeCommand parse v outcomes =
      ⟨Except.error (Failure.typeError "[oxfd.js] command must be a non-empty string"), []⟩ ∧
    Event.acquire ∉ (api.executeCommand parse v outcomes).events ∧
    ∀ n : Nat, Event.attemptFetch n ∉ (api.executeCommand parse v outcomes).events := by
  have heq : api.executeCommand parse v outcomes =
      ⟨Except.error (Failure.typeError "[oxfd.js] command must be a non-empty string"), []⟩ := by
    cases v with
    | strA s =>
      rcases hv with hf | he
      · simp [jsArgIsString] at hf
      · injection he with hs
        simp [OxfordAPI.executeCommand, hs]
    | undef => rfl
    | nullA => rfl
    | boolA b => rfl
    | numA n => rfl
    | objA => rfl
  exact ⟨heq, by simp [heq], fun n => by simp [heq]⟩

/-- Witness for C8: the empty string and a non-string argument both fail fast
with an empty trace. -/
theorem c8_command_validation_witness :
    (OxfordAPI.executeCommand ⟨"k", "https://api.oxfd.re/v1", 3, 10000, none⟩
        (fun _ => none) (JsArg.strA "") (fun _ => FetchOutcome.abortError) =
      ⟨Except.error (Failure.typeError "[oxfd.js] command must be a non-empty string"), []⟩) ∧
    (OxfordAPI.executeCommand ⟨"k", "https://api.oxfd.re/v1", 3, 10000, none⟩
        (fun _ => none) (JsArg.numA (JsNum.val 7)) (fun _ => FetchOutcome.abortError) =
      ⟨Except.error (Failure.typeError "[oxfd.js] command must be a non-empty string"), []⟩) :=
  ⟨(c8_command_validation ⟨"k", "https://api.oxfd.re/v1", 3, 10000, none⟩
      (fun _ => none) (fun _ => FetchOutcome.abortError) (JsArg.strA "") (Or.inr rfl)).1,
   (c8_command_validation ⟨"k", "https://api.oxfd.re/v1", 3, 10000, none⟩
      (fun _ => none) (fun _ => FetchOutcome.abortError) (JsArg.numA (JsNum.val 7))
      (Or.inl rfl)).1⟩

/-- C10: each grouped manager method is definitionally the corresponding flat
client method applied to the manager's stored client — for every client, parser,
outcome assignment and (for `commands.execute`) every argument — so the managers
add no logic, validation or state. -/
theorem c10_managers_forward :
    (∀ (api : OxfordAPI) (parse : String → Option JsValue) (outcomes : Nat → FetchOutcome),
      (api.servers.getServer parse outcomes = api.getServer parse outcomes) ∧
      (api.servers.getPlayers parse outcomes = api.getPlayers parse outcomes) ∧
      (api.servers.getQueue parse outcomes = api.getQueue parse outcomes) ∧
      (api.servers.getBans parse outcomes = api.getBans parse outcomes) ∧
      (api.servers.getVehicles parse outcomes = api.getVehicles parse outcomes) ∧
      (api.servers.getRobberies parse outcomes = api.getRobberies parse outcomes)) ∧
    (∀ (api : OxfordAPI) (parse : String → Option JsValue) (outcomes : Nat → FetchOutcome),
      (api.logs.getKillLogs parse outcomes = api.getKillLogs parse outcomes) ∧
      (api.logs.getCommandLogs parse outcomes = api.getCommandLogs parse outcomes) ∧
      (api.logs.getModCalls parse outcomes = api.getModCalls parse outcomes) ∧
      (api.logs.getRadioCalls parse outcomes = api.getRadioCalls parse outcomes) ∧
      (api.logs.getJoinLogs parse outcomes = api.getJoinLogs parse outcomes)) ∧
    (∀ (api : OxfordAPI) (parse : String → Option JsValue) (c : JsArg)
        (outcomes : Nat → FetchOutcome),
      api.commands.execute parse c outcomes = api.executeCommand parse c outcomes) :=
  ⟨fun _ _ _ => ⟨rfl, rfl, rfl, rfl, rfl, rfl⟩,
   fun _ _ _ => ⟨rfl, rfl, rfl, rfl, rfl⟩,
   fun _ _ _ _ => rfl⟩

/-- Counterexample for C1 as stated: the claim's "defaulting to 1 second when
the header is absent or unparseable" fails for an unparseable non-empty header.
With max-retries 1 and a 429 carrying `Retry-After: abc`, the executor sleeps
`Number("abc") * 1000` = NaN milliseconds before the retry, not 1000 ms. -/
theorem c1_retry_counterexample :
    (OxfordAPI._request ⟨"k", "https://api.oxfd.re/v1", 1, 10000, none⟩ (fun _ => none)
        "GET" "/server" none
        (fun n => if n = 0 then FetchOutcome.response 429 "" (some "abc") ""
                  else FetchOutcome.response 200 "OK" none "")).events =
      [Event.attemptFetch 0, Event.sleep JsNum.nan, Event.attemptFetch 1] ∧
    JsNum.nan ≠ JsNum.val 1000 :=
  ⟨rfl, by decide⟩

/-- C1 (amended): on a 429 with attempts remaining the executor sleeps
`Number(Retry-After) * 1000` ms — 1000 ms when the header is absent or empty,
`s * 1000` for a numeral `s`, and NaN (not 1 second) for a non-empty
unparseable header — then re-issues the full call (with a fresh admission-gate
acquisition at its head) at attempt + 1; with attempts exhausted it fails at
once with the rate-limit error carrying the raw header value; and the
constructor's default max-retries is 3. -/
theorem c1_retry_amended :
    (∀ (api : OxfordAPI) (parse : String → Option JsValue) (method path : String)
        (body : Option JsValue) (outcomes : Nat → FetchOutcome) (fuel attempt : Nat)
        (stx : String) (ra : Option String) (txt : String),
      outcomes attempt = FetchOutcome.response 429 stx ra txt →
      attempt < api.maxRetries →
      requestLoop api parse method path body outcomes (fuel + 1) attempt =
        ⟨(requestLoop api parse method path body outcomes fuel (attempt + 1)).result,
         bucketEvents api ++
           [Event.attemptFetch attempt, Event.sleep (retryWaitMs ra)] ++
           (requestLoop api parse method path body outcomes fuel (attempt + 1)).events⟩) ∧
    (∀ (api : OxfordAPI) (parse : String → Option JsValue) (method path : String)
        (body : Option JsValue) (outcomes : Nat → FetchOutcome) (fuel attempt : Nat)
        (stx : String) (ra : Option String) (txt : String),
      outcomes attempt = FetchOutcome.response 429 stx ra txt →
      api.maxRetries ≤ attempt →
      requestLoop api parse method path body outcomes fuel attempt =
        ⟨Except.error (Failure.oxford (rateLimitError "Rate limit exceeded" ra)),
         bucketEvents api ++ [Event.attemptFetch attempt]⟩) ∧
    (retryWaitMs none = JsNum.val 1000 ∧ retryWaitMs (some "") = JsNum.val 1000 ∧
      retryWaitMs (some "2") = JsNum.val 2000 ∧ retryWaitMs (some "abc") = JsNum.nan) ∧
    (∀ (sk u : String) (mr tmo : Nat) (bc : BucketConfig)
        (parse : String → Option JsValue) (method path : String) (body : Option JsValue)
        (outcomes : Nat → FetchOutcome) (fuel attempt : Nat),
      (requestLoop ⟨sk, u, mr, tmo, some bc⟩ parse method path body outcomes
          fuel attempt).events.head? = some Event.acquire) ∧
    OxfordAPI.create ⟨"k", none, none, none⟩ =
      Except.ok ⟨"k", "https://api.oxfd.re/v1", 3, 10000, some ⟨10, (29 : Rat) / 1000⟩⟩ := by
  refine ⟨?_, ?_, ⟨rfl, rfl, ?_, rfl⟩, ?_, rfl⟩
  · intro api parse method path body outcomes fuel attempt stx ra txt h hlt
    exact requestLoop_eq_retry h hlt
  · intro api parse method path body outcomes fuel attempt stx ra txt h hge
    exact requestLoop_eq_exhausted h (not_lt.mpr hge)
  · simp [retryWaitMs, jsNumMul, stringToNumber, trimChars, isJsSpace, decOfChars,
      allDigits, natOfDigits]
    norm_num
  · intro sk u mr tmo bc parse method path body outcomes fuel attempt
    have hb : bucketEvents ⟨sk, u, mr, tmo, some bc⟩ = [Event.acquire] := rfl
    cases h : outcomes attempt with
    | abortError => rw [requestLoop_eq_abort h, hb]; rfl
    | netError m => rw [requestLoop_eq_net h, hb]; rfl
    | response st stx ra txt =>
      by_cases h429 : st = 429
      · subst h429
        by_cases hlt : attempt < mr
        · cases fuel with
          | zero => rw [requestLoop_eq_fuel0_429 h, hb]; rfl
          | succ fuel => rw [requestLoop_eq_retry h hlt, hb]; rfl
        · rw [requestLoop_eq_exhausted h hlt, hb]; rfl
      · cases hok : resOk st with
        | true => rw [requestLoop_eq_ok h h429 hok, hb]; rfl
        | false => rw [requestLoop_eq_classified h h429 hok, hb]; rfl

/-- Witness for C1 (amended): a 429 with `Retry-After: 2` at max-retries 1
retries once after a 2000 ms sleep and succeeds; with max-retries 0 the same
429 fails immediately with the rate-limit error carrying "2". -/
theorem c1_retry_amended_witness :
    requestLoop ⟨"k", "https://api.oxfd.re/v1", 1, 10000, none⟩ (fun _ => none)
        "GET" "/server" none
        (fun n => if n = 0 then FetchOutcome.response 429 "" (some "2") ""
                  else FetchOutcome.response 200 "OK" none "") (1 + 1) 0 =
      ⟨(requestLoop ⟨"k", "https://api.oxfd.re/v1", 1, 10000, none⟩ (fun _ => none)
          "GET" "/server" none
          (fun n => if n = 0 then FetchOutcome.response 429 "" (some "2") ""
                    else FetchOutcome.response 200 "OK" none "") 1 (0 + 1)).result,
       bucketEvents ⟨"k", "https://api.oxfd.re/v1", 1, 10000, none⟩ ++
         [Event.attemptFetch 0, Event.sleep (retryWaitMs (some "2"))] ++
         (requestLoop ⟨"k", "https://api.oxfd.re/v1", 1, 10000, none⟩ (fun _ => none)
            "GET" "/server" none
            (fun n => if n = 0 then FetchOutcome.response 429 "" (some "2") ""
                      else FetchOutcome.response 200 "OK" none "") 1 (0 + 1)).events⟩ ∧
    retryWaitMs (some "2") = JsNum.val 2000 ∧
    requestLoop ⟨"k", "https://api.oxfd.re/v1", 0, 10000, none⟩ (fun _ => none)
        "GET" "/server" none
        (fun _ => FetchOutcome.response 429 "" (some "2") "") 1 0 =
      ⟨Except.error (Failure.oxford (rateLimitError "Rate limit exceeded" (some "2"))),
       [Event.attemptFetch 0]⟩ :=
  ⟨c1_retry_amended.1 ⟨"k", "https://api.oxfd.re/v1", 1, 10000, none⟩ (fun _ => none)
      "GET" "/server" none
      (fun n => if n = 0 then FetchOutcome.response 429 "" (some "2") ""
                else FetchOutcome.response 200 "OK" none "") 1 0 "" (some "2") "" rfl
      (by decide),
   c1_retry_amended.2.2.1.2.2.1,
   c1_retry_amended.2.1 ⟨"k", "https://api.oxfd.re/v1", 0, 10000, none⟩ (fun _ => none)
      "GET" "/server" none (fun _ => FetchOutcome.response 429 "" (some "2") "") 1 0
      "" (some "2") "" rfl (by decide)⟩

/-- Counterexample for C2 as stated: a 503 whose body carries no message field
does not get the claimed default message whenever the response's statusText is
non-empty — the executor falls back to `res.statusText` first
(`data?.message || res.statusText`), here producing "Service Unavailable". -/
theorem c2_503_counterexample :
    (OxfordAPI._request ⟨"k", "https://api.oxfd.re/v1", 3, 10000, none⟩ (fun _ => none)
        "GET" "/server" none
        (fun _ => FetchOutcome.response 503 "Service Unavailable" none "")).result =
      Except.error (Failure.oxford
        ⟨"ServerUnavailableError", "Service Unavailable", 503, none, none⟩) ∧
    "Service Unavailable" ≠ "Server data temporarily unavailable" :=
  ⟨rfl, by decide⟩

/-- C2 (amended): every 503 response fails with a ServerUnavailableError whose
message is the first truthy value of the chain — the parsed body's `message`
field, then the response's statusText, then the fixed default "Server data
temporarily unavailable" — and whose status is 503 with no detail. -/
theorem c2_503_amended {api : OxfordAPI} {parse : String → Option JsValue}
    {method path : String} {body : Option JsValue} {outcomes : Nat → FetchOutcome}
    {fuel attempt : Nat} {stx : String} {ra : Option String} {txt : String}
    (h : outcomes attempt = FetchOutcome.response 503 stx ra txt) :
    (requestLoop api parse method path body outcomes fuel attempt =
      ⟨Except.error (Failure.oxford (serverUnavailableError
          (jsOrString (jsGetField (parseBody parse txt) "message") stx))),
       bucketEvents api ++ [Event.attemptFetch attempt]⟩) ∧
    (∀ (v : JsValue) (s : String), jsTruthy v = true →
      serverUnavailableError (jsOrString (some v) s) =
        ⟨"ServerUnavailableError", jsToString v, 503, none, none⟩) ∧
    (∀ (v : JsValue) (s : String), jsTruthy v = false →
      jsOrString (some v) s = JsValue.str s) ∧
    (∀ s : String, s ≠ "" →
      serverUnavailableError (jsOrString none s) =
        ⟨"ServerUnavailableError", s, 503, none, none⟩) ∧
    serverUnavailableError (jsOrString none "") =
      ⟨"ServerUnavailableError", "Server data temporarily unavailable", 503,
       none, none⟩ := by
  refine ⟨?_, ?_, ?_, ?_, rfl⟩
  · rw [requestLoop_eq_classified h (by decide) (by decide)]
    rfl
  · intro v s hv
    simp [serverUnavailableError, jsOrString, hv]
  · intro v s hv
    simp [jsOrString, hv]
  · intro s hs
    simp [serverUnavailableError, jsOrString, jsTruthy, jsToString, hs]

/-- Witness for C2 (amended): a 503 whose body parses to an object with a
truthy message "backend down" produces that message; one with an empty body and
empty statusText produces the default. -/
theorem c2_503_amended_witness :
    (requestLoop ⟨"k", "https://api.oxfd.re/v1", 3, 10000, none⟩
        (fun t => if t = "x" then
            some (JsValue.obj (JsObject.cons "message" (JsValue.str "backend down") JsObject.nil))
          else none)
        "GET" "/server" none
        (fun _ => FetchOutcome.response 503 "Service Unavailable" none "x") 4 0 =
      ⟨Except.error (Failure.oxford (serverUnavailableError
          (jsOrString (jsGetField (parseBody
            (fun t => if t = "x" then
                some (JsValue.obj (JsObject.cons "message" (JsValue.str "backend down") JsObject.nil))
              else none) "x") "message") "Service Unavailable"))),
       [Event.attemptFetch 0]⟩) ∧
    serverUnavailableError (jsOrString (some (JsValue.str "backend down")) "Service Unavailable") =
      ⟨"ServerUnavailableError", "backend down", 503, none, none⟩ ∧
    serverUnavailableError (jsOrString none "") =
      ⟨"ServerUnavailableError", "Server data temporarily unavailable", 503, none, none⟩ := by
  have h := @c2_503_amended ⟨"k", "https://api.oxfd.re/v1", 3, 10000, none⟩
    (fun t => if t = "x" then
        some (JsValue.obj (JsObject.cons "message" (JsValue.str "backend down") JsObject.nil))
      else none)
    "GET" "/server" none
    (fun _ => FetchOutcome.response 503 "Service Unavailable" none "x") 4 0
    "Service Unavailable" none "x" rfl
  exact ⟨h.1, h.2.1 (JsValue.str "backend down") "Service Unavailable" rfl, h.2.2.2.2⟩

/-- Immediate grant: an `acquire()` on an idle bucket whose clock has not
advanced since the last refill and which holds at least one token resolves the
caller at once, consuming exactly one token. -/
theorem stepSys_arrive_grant_now (cap tok rate : Rat) (gs : List Nat) (tm : Option Rat)
    (id : Nat) (now : Rat) (h1 : 1 ≤ tok) (h2 : tok ≤ cap) :
    stepSys ⟨⟨cap, tok, rate, now, [], false⟩, gs, tm⟩ (BEvent.arrive id now) =
      ⟨⟨cap, tok - 1, rate, now, [], false⟩, gs ++ [id], none⟩ := by
  have hmin : min cap (tok + (now - now) * rate) = tok := by
    rw [sub_self, zero_mul, add_zero]
    exact min_eq_right h2
  have h := stepSys_arrive_grant cap tok rate now gs tm id now (by rw [hmin]; exact h1)
  rw [h, hmin]

/-- Blocked acquire: with less than one token available the caller is queued
and the drain parks on a timer for `(1 - tokens) / refillRate` milliseconds. -/
theorem stepSys_arrive_wait_now (cap tok rate : Rat) (gs : List Nat) (tm : Option Rat)
    (id : Nat) (now : Rat) (h1 : ¬ 1 ≤ tok) (h2 : tok ≤ cap) :
    stepSys ⟨⟨cap, tok, rate, now, [], false⟩, gs, tm⟩ (BEvent.arrive id now) =
      ⟨⟨cap, tok, rate, now, [id], true⟩, gs, some ((1 - tok) / rate)⟩ := by
  have hmin : min cap (tok + (now - now) * rate) = tok := by
    rw [sub_self, zero_mul, add_zero]
    exact min_eq_right h2
  have h := stepSys_arrive_wait cap tok rate now gs tm id now (by rw [hmin]; exact h1)
  rw [h, hmin]

/-- C5: the constructor's rate-limit modes install exactly the claimed
admission gates — "none" installs no bucket (and then no call ever performs an
acquisition), "auto" installs a (capacity 10, 29/1000 tokens-per-ms) bucket,
and a numeric value S installs a (capacity 1, 1/(S*1000)) bucket.  On the auto
bucket, eleven back-to-back acquisitions see the first ten granted immediately
and the eleventh queued behind a 1000/29 ms timer, which on firing (once the
refill has produced one token) grants it; on the 2-second fixed-interval
bucket the second back-to-back acquisition parks on a 2000 ms timer. -/
theorem c5_rate_limit_modes :
    mkBucket RateLimitSetting.noLimit = none ∧
    mkBucket RateLimitSetting.auto = some ⟨10, (29 : Rat) / 1000⟩ ∧
    (∀ s : Rat, mkBucket (RateLimitSetting.seconds s) = some ⟨1, 1 / (s * 1000)⟩) ∧
    (∀ (sk u : String) (mr tmo : Nat) (parse : String → Option JsValue)
        (method path : String) (body : Option JsValue) (outcomes : Nat → FetchOutcome)
        (fuel attempt : Nat),
      Event.acquire ∉
        (requestLoop ⟨sk, u, mr, tmo, none⟩ parse method path body outcomes
          fuel attempt).events) ∧
    runSys (initSys 10 ((29 : Rat) / 1000) 0)
        [BEvent.arrive 0 0, BEvent.arrive 1 0, BEvent.arrive 2 0, BEvent.arrive 3 0,
         BEvent.arrive 4 0, BEvent.arrive 5 0, BEvent.arrive 6 0, BEvent.arrive 7 0,
         BEvent.arrive 8 0, BEvent.arrive 9 0, BEvent.arrive 10 0] =
      ⟨⟨10, 0, (29 : Rat) / 1000, 0, [10], true⟩, [0, 1, 2, 3, 4, 5, 6, 7, 8, 9],
       some (1000 / 29)⟩ ∧
    runSys (initSys 10 ((29 : Rat) / 1000) 0)
        [BEvent.arrive 0 0, BEvent.arrive 1 0, BEvent.arrive 2 0, BEvent.arrive 3 0,
         BEvent.arrive 4 0, BEvent.arrive 5 0, BEvent.arrive 6 0, BEvent.arrive 7 0,
         BEvent.arrive 8 0, BEvent.arrive 9 0, BEvent.arrive 10 0,
         BEvent.timerFire (1000 / 29)] =
      ⟨⟨10, 0, (29 : Rat) / 1000, 1000 / 29, [], false⟩,
       [0, 1, 2, 3, 4, 5, 6, 7, 8, 9, 10], none⟩ ∧
    runSys (initSys 1 (1 / ((2 : Rat) * 1000)) 0) [BEvent.arrive 0 0, BEvent.arrive 1 0] =
      ⟨⟨1, 0, 1 / ((2 : Rat) * 1000), 0, [1], true⟩, [0], some 2000⟩ := by
  have hinit : initSys 10 ((29 : Rat) / 1000) 0 =
      ⟨⟨10, 10, (29 : Rat) / 1000, 0, [], false⟩, [], none⟩ := rfl
  have e1 : stepSys ⟨⟨10, 10, (29 : Rat) / 1000, 0, [], false⟩, [], none⟩
      (BEvent.arrive 0 0) =
      ⟨⟨10, 9, (29 : Rat) / 1000, 0, [], false⟩, [0], none⟩ := by
    rw [stepSys_arrive_grant_now 10 10 ((29 : Rat) / 1000) [] none 0 0 (by norm_num)
      (by norm_num)]
    norm_num
  have e2 : stepSys ⟨⟨10, 9, (29 : Rat) / 1000, 0, [], false⟩, [0], none⟩
      (BEvent.arrive 1 0) =
      ⟨⟨10, 8, (29 : Rat) / 1000, 0, [], false⟩, [0, 1], none⟩ := by
    rw [stepSys_arrive_grant_now 10 9 ((29 : Rat) / 1000) [0] none 1 0 (by norm_num)
      (by norm_num)]
    norm_num
  have e3 : stepSys ⟨⟨10, 8, (29 : Rat) / 1000, 0, [], false⟩, [0, 1], none⟩
      (BEvent.arrive 2 0) =
      ⟨⟨10, 7, (29 : Rat) / 1000, 0, [], false⟩, [0, 1, 2], none⟩ := by
    rw [stepSys_arrive_grant_now 10 8 ((29 : Rat) / 1000) [0, 1] none 2 0 (by norm_num)
      (by norm_num)]
    norm_num
  have e4 : stepSys ⟨⟨10, 7, (29 : Rat) / 1000, 0, [], false⟩, [0, 1, 2], none⟩
      (BEvent.arrive 3 0) =
      ⟨⟨10, 6, (29 : Rat) / 1000, 0, [], false⟩, [0, 1, 2, 3], none⟩ := by
    rw [stepSys_arrive_grant_now 10 7 ((29 : Rat) / 1000) [0, 1, 2] none 3 0 (by norm_num)
      (by norm_num)]
    norm_num
  have e5 : stepSys ⟨⟨10, 6, (29 : Rat) / 1000, 0, [], false⟩, [0, 1, 2, 3], none⟩
      (BEvent.arrive 4 0) =
      ⟨⟨10, 5, (29 : Rat) / 1000, 0, [], false⟩, [0, 1, 2, 3, 4], none⟩ := by
    rw [stepSys_arrive_grant_now 10 6 ((29 : Rat) / 1000) [0, 1, 2, 3] none 4 0
      (by norm_num) (by norm_num)]
    norm_num
  have e6 : stepSys ⟨⟨10, 5, (29 : Rat) / 1000, 0, [], false⟩, [0, 1, 2, 3, 4], none⟩
      (BEvent.arrive 5 0) =
      ⟨⟨10, 4, (29 : Rat) / 1000, 0, [], false⟩, [0, 1, 2, 3, 4, 5], none⟩ := by
    rw [stepSys_arrive_grant_now 10 5 ((29 : Rat) / 1000) [0, 1, 2, 3, 4] none 5 0
      (by norm_num) (by norm_num)]
    norm_num
  have e7 : stepSys ⟨⟨10, 4, (29 : Rat) / 1000, 0, [], false⟩, [0, 1, 2, 3, 4, 5], none⟩
      (BEvent.arrive 6 0) =
      ⟨⟨10, 3, (29 : Rat) / 1000, 0, [], false⟩, [0, 1, 2, 3, 4, 5, 6], none⟩ := by
    rw [stepSys_arrive_grant_now 10 4 ((29 : Rat) / 1000) [0, 1, 2, 3, 4, 5] none 6 0
      (by norm_num) (by norm_num)]
    norm_num
  have e8 : stepSys
      ⟨⟨10, 3, (29 : Rat) / 1000, 0, [], false⟩, [0, 1, 2, 3, 4, 5, 6], none⟩
      (BEvent.arrive 7 0) =
      ⟨⟨10, 2, (29 : Rat) / 1000, 0, [], false⟩, [0, 1, 2, 3, 4, 5, 6, 7], none⟩ := by
    rw [stepSys_arrive_grant_now 10 3 ((29 : Rat) / 1000) [0, 1, 2, 3, 4, 5, 6] none 7 0
      (by norm_num) (by norm_num)]
    norm_num
  have e9 : stepSys
      ⟨⟨10, 2, (29 : Rat) / 1000, 0, [], false⟩, [0, 1, 2, 3, 4, 5, 6, 7], none⟩
      (BEvent.arrive 8 0) =
      ⟨⟨10, 1, (29 : Rat) / 1000, 0, [], false⟩, [0, 1, 2, 3, 4, 5, 6, 7, 8], none⟩ := by
    rw [stepSys_arrive_grant_now 10 2 ((29 : Rat) / 1000) [0, 1, 2, 3, 4, 5, 6, 7] none 8 0
      (by norm_num) (by norm_num)]
    norm_num
  have e10 : stepSys
      ⟨⟨10, 1, (29 : Rat) / 1000, 0, [], false⟩, [0, 1, 2, 3, 4, 5, 6, 7, 8], none⟩
      (BEvent.arrive 9 0) =
      ⟨⟨10, 0, (29 : Rat) / 1000, 0, [], false⟩, [0, 1, 2, 3, 4, 5, 6, 7, 8, 9], none⟩ := by
    rw [stepSys_arrive_grant_now 10 1 ((29 : Rat) / 1000) [0, 1, 2, 3, 4, 5, 6, 7, 8]
      none 9 0 (by norm_num) (by norm_num)]
    norm_num
  have e11 : stepSys
      ⟨⟨10, 0, (29 : Rat) / 1000, 0, [], false⟩, [0, 1, 2, 3, 4, 5, 6, 7, 8, 9], none⟩
      (BEvent.arrive 10 0) =
      ⟨⟨10, 0, (29 : Rat) / 1000, 0, [10], true⟩, [0, 1, 2, 3, 4, 5, 6, 7, 8, 9],
       some (1000 / 29)⟩ := by
    rw [stepSys_arrive_wait_now 10 0 ((29 : Rat) / 1000) [0, 1, 2, 3, 4, 5, 6, 7, 8, 9]
      none 10 0 (by norm_num) (by norm_num)]
    norm_num
  have e12 : stepSys
      ⟨⟨10, 0, (29 : Rat) / 1000, 0, [10], true⟩, [0, 1, 2, 3, 4, 5, 6, 7, 8, 9],
       some (1000 / 29)⟩ (BEvent.timerFire (1000 / 29)) =
      ⟨⟨10, 0, (29 : Rat) / 1000, 1000 / 29, [], false⟩,
       [0, 1, 2, 3, 4, 5, 6, 7, 8, 9, 10], none⟩ := by
    rw [stepSys_timer_grant 10 0 ((29 : Rat) / 1000) 0 [0, 1, 2, 3, 4, 5, 6, 7, 8, 9]
      (1000 / 29) 10 (1000 / 29) (by norm_num [min_def])]
    norm_num [min_def]
  have hinit2 : initSys 1 (1 / ((2 : Rat) * 1000)) 0 =
      ⟨⟨1, 1, 1 / ((2 : Rat) * 1000), 0, [], false⟩, [], none⟩ := rfl
  have f1 : stepSys ⟨⟨1, 1, 1 / ((2 : Rat) * 1000), 0, [], false⟩, [], none⟩
      (BEvent.arrive 0 0) =
      ⟨⟨1, 0, 1 / ((2 : Rat) * 1000), 0, [], false⟩, [0], none⟩ := by
    rw [stepSys_arrive_grant_now 1 1 (1 / ((2 : Rat) * 1000)) [] none 0 0 (by norm_num)
      (by norm_num)]
    norm_num
  have f2 : stepSys ⟨⟨1, 0, 1 / ((2 : Rat) * 1000), 0, [], false⟩, [0], none⟩
      (BEvent.arrive 1 0) =
      ⟨⟨1, 0, 1 / ((2 : Rat) * 1000), 0, [1], true⟩, [0], some 2000⟩ := by
    rw [stepSys_arrive_wait_now 1 0 (1 / ((2 : Rat) * 1000)) [0] none 1 0 (by norm_num)
      (by norm_num)]
    norm_num
  refine ⟨rfl, rfl, fun s => rfl, ?_, ?_, ?_, ?_⟩
  · intro sk u mr tmo parse method path body outcomes fuel attempt
    exact requestLoop_no_bucket_acquire sk u mr tmo parse method path body outcomes
      fuel attempt
  · simp only [runSys, List.foldl, hinit, e1, e2, e3, e4, e5, e6, e7, e8, e9, e10, e11]
  · simp only [runSys, List.foldl, hinit, e1, e2, e3, e4, e5, e6, e7, e8, e9, e10, e11,
      e12]
  · simp only [runSys, List.foldl, hinit2, f1, f2]

/-- Counterexample for C3 as stated: with capacity 1 ≥ 1 and refill rate 1 > 0,
a single acquire at a clock reading 2 ms before the bucket's creation time (a
backwards `Date.now()` step — "arbitrary timestamps") drives the token count to
-1: `Math.min` clamps only from above, so a negative elapsed time pushes the
count below zero. -/
theorem c3_bounds_counterexample :
    (1 : Rat) ≤ 1 ∧ (0 : Rat) < 1 ∧
    (runSys (initSys 1 1 0) [BEvent.arrive 0 (-2)]).bucket.tokens = -1 ∧
    (-1 : Rat) < 0 := by
  refine ⟨le_refl 1, by norm_num, ?_, by norm_num⟩
  simp [runSys, stepSys, initSys, TokenBucket.mkAt, TokenBucket.tick, tickFuel,
    TokenBucket._refill]
  norm_num

/-- C3 (amended): for every bucket created with capacity C ≥ 1 and refill rate
R > 0, and every stimulus sequence whose clock readings never decrease from the
creation time on (Date.now observed monotone), the token count stays within
0 ≤ tokens ≤ C. -/
theorem c3_bounds_amended (C R t0 : Rat) (es : List BEvent) (hC : 1 ≤ C) (hR : 0 < R)
    (hch : chrono t0 es = true) :
    0 ≤ (runSys (initSys C R t0) es).bucket.tokens ∧
      (runSys (initSys C R t0) es).bucket.tokens ≤ C :=
  runSys_inv C R (le_of_lt hR) (le_trans zero_le_one hC) es (initSys C R t0) t0
    (le_trans zero_le_one hC) (le_refl C) rfl rfl (le_refl t0) hch

/-- Witness for C3 (amended): a concrete monotone run on the auto bucket keeps
the count within bounds. -/
theorem c3_bounds_amended_witness :
    chrono 0 [BEvent.arrive 0 0, BEvent.arrive 1 5, BEvent.timerFire 40] = true ∧
    (1 : Rat) ≤ 10 ∧ (0 : Rat) < (29 : Rat) / 1000 ∧
    (0 ≤ (runSys (initSys 10 ((29 : Rat) / 1000) 0)
        [BEvent.arrive 0 0, BEvent.arrive 1 5, BEvent.timerFire 40]).bucket.tokens ∧
      (runSys (initSys 10 ((29 : Rat) / 1000) 0)
        [BEvent.arrive 0 0, BEvent.arrive 1 5, BEvent.timerFire 40]).bucket.tokens ≤ 10) := by
  have hch : chrono 0 [BEvent.arrive 0 0, BEvent.arrive 1 5, BEvent.timerFire 40] = true := by
    simp [chrono, eventTime]
    norm_num
  exact ⟨hch, by norm_num, by norm_num,
    c3_bounds_amended 10 ((29 : Rat) / 1000) 0
      [BEvent.arrive 0 0, BEvent.arrive 1 5, BEvent.timerFire 40]
      (by norm_num) (by norm_num) hch⟩

/-- C4: for every stimulus sequence on a fresh bucket, the resolved waiters
followed by the still-queued waiters are exactly the acquire calls in arrival
order (FIFO: nobody is lost, reordered, or resolved twice); when the arrival
ids are distinct the grants are distinct, so no two acquisitions consume the
same grant slot; an acquire arriving while a drain is in progress (the
`processing` flag is set) only appends to the queue — it starts no second
drain, changes no tokens, and resolves nobody; and one drain pass over a
non-empty queue ends with exactly the refilled token count minus one token per
waiter it resolved. -/
theorem c4_fifo_drain :
    (∀ (C R t0 : Rat) (es : List BEvent),
      (runSys (initSys C R t0) es).grants ++ (runSys (initSys C R t0) es).bucket.queue =
        arrivalIds es) ∧
    (∀ (C R t0 : Rat) (es : List BEvent), (arrivalIds es).Nodup →
      (runSys (initSys C R t0) es).grants.Nodup) ∧
    (∀ (s : BucketSys) (id : Nat) (now : Rat), s.bucket.processing = true →
      stepSys s (BEvent.arrive id now) =
        ⟨⟨s.bucket.capacity, s.bucket.tokens, s.bucket.refillRate, s.bucket.lastRefill,
          s.bucket.queue ++ [id], s.bucket.processing⟩, s.grants, s.timer⟩) ∧
    (∀ (b : TokenBucket) (now : Rat), b.queue ≠ [] → b.tokens ≤ b.capacity →
      (b.tick now).bucket.tokens =
        (b._refill now).tokens - (b.tick now).granted.length) := by
  have hspine : ∀ (C R t0 : Rat) (es : List BEvent),
      (runSys (initSys C R t0) es).grants ++ (runSys (initSys C R t0) es).bucket.queue =
        arrivalIds es := by
    intro C R t0 es
    have h := runSys_spine es (initSys C R t0)
    simpa [initSys, TokenBucket.mkAt] using h
  refine ⟨hspine, ?_, ?_, ?_⟩
  · intro C R t0 es hnd
    have h := hspine C R t0 es
    rw [← h] at hnd
    exact hnd.of_append_left
  · intro s id now hp
    obtain ⟨⟨cap, tok, rate, last, q, proc⟩, gs, tm⟩ := s
    simp only at hp
    subst hp
    simp [stepSys]
  · intro b now hq hc
    exact tick_tokens b now hq hc

/-- Witness for C4: a concrete two-arrival run (ids 1, 2) on a capacity-1
bucket, a concrete append-only arrive during an in-progress drain, and a
concrete one-resolution drain pass. -/
theorem c4_fifo_drain_witness :
    ((runSys (initSys 1 1 0) [BEvent.arrive 1 0, BEvent.arrive 2 0]).grants ++
        (runSys (initSys 1 1 0) [BEvent.arrive 1 0, BEvent.arrive 2 0]).bucket.queue =
      [1, 2]) ∧
    ([1, 2] : List Nat).Nodup ∧
    (runSys (initSys 1 1 0) [BEvent.arrive 1 0, BEvent.arrive 2 0]).grants.Nodup ∧
    (stepSys ⟨⟨1, 0, 1, 0, [5], true⟩, [4], some 1⟩ (BEvent.arrive 6 0) =
      ⟨⟨1, 0, 1, 0, [5, 6], true⟩, [4], some 1⟩) ∧
    ([5] : List Nat) ≠ [] ∧ (0 : Rat) ≤ 1 ∧
    (TokenBucket.tick ⟨1, 0, 1, 0, [5], true⟩ 0).bucket.tokens =
      (TokenBucket._refill ⟨1, 0, 1, 0, [5], true⟩ 0).tokens -
        (TokenBucket.tick ⟨1, 0, 1, 0, [5], true⟩ 0).granted.length := by
  have hnd : ([1, 2] : List Nat).Nodup := by decide
  refine ⟨c4_fifo_drain.1 1 1 0 [BEvent.arrive 1 0, BEvent.arrive 2 0], hnd,
    c4_fifo_drain.2.1 1 1 0 [BEvent.arrive 1 0, BEvent.arrive 2 0] hnd,
    c4_fifo_drain.2.2.1 ⟨⟨1, 0, 1, 0, [5], true⟩, [4], some 1⟩ 6 0 rfl, by decide,
    by norm_num,
    c4_fifo_drain.2.2.2 ⟨1, 0, 1, 0, [5], true⟩ 0 (by decide) (by norm_num)⟩

end Oxfd
